import Mathlib

/-!
Verification of the `ml-memory` conversational-assistant backend.

We shallowly embed the backend's Python modules:

* `backend/brain.py` — `PersistentMemory.add_memory` / `search_memory`
  over a Pinecone index (modelled as a list of records with upsert
  semantics; the embedder and the similarity metric are opaque
  parameters).
* `backend/worker.py` — `save_to_sql_db` and the memory half of
  `embed_and_save_task`.
* `backend/app.py` — the `/chat`, `/conversations` and
  `/history/{conversation_id}` handlers over a relational state of
  conversations and messages.

Machine-level details: message/conversation ids are naturals handed out
by insertion order (SQLite autoincrement), timestamps are naturals
(seconds), and similarity scores are rationals (a Pinecone score is a
float; every comparison performed by the code is against the literal
`0.7`, and on floats `s > float(0.7)` and `s > 7/10` agree for every
representable `s`, so rationals are faithful here).
-/

namespace MlMemory

/-! ## Python string builtins

Embeddings of the two Python string primitives the backend uses,
written by structural recursion on the character list so that concrete
instances evaluate inside the kernel. -/

/-- Helper for `pySplit`: walk the characters, `acc` holding the
current word reversed. -/
def pySplitAux : List Char → List Char → List String
  | [], acc => if acc = [] then [] else [String.mk acc.reverse]
  | c :: cs, acc =>
    if c.isWhitespace then
      if acc = [] then pySplitAux cs []
      else String.mk acc.reverse :: pySplitAux cs []
    else pySplitAux cs (c :: acc)

/-- Python `str.split()` with no argument: split on runs of whitespace,
dropping empty pieces. -/
def pySplit (s : String) : List String := pySplitAux s.data []

/-- Python `str.strip()`: remove leading and trailing whitespace. -/
def pyStrip (s : String) : String :=
  String.mk (((s.data.dropWhile Char.isWhitespace).reverse.dropWhile Char.isWhitespace).reverse)

/-- Python `" ".join(words)`. -/
def joinSpace : List String → String
  | [] => ""
  | [w] => w
  | w :: ws => w ++ " " ++ joinSpace ws

/-! ## Python call binding

`worker.py` and `app.py` invoke the methods of `brain.PersistentMemory`
with argument lists that must bind against the method's parameter list
under Python's rules. `bindOk params defaults npos kwargs` decides
whether a call with `npos` positional arguments and keyword arguments
`kwargs` binds against a method whose parameters (after `self`) are
`params`, the last `defaults` of which carry default values. A `false`
result is a `TypeError` at call time: too many positional arguments, an
unexpected keyword, a parameter given both positionally and by keyword,
or a required parameter left unbound. -/
def bindOk (params : List String) (defaults npos : Nat) (kwargs : List String) : Bool :=
  decide (npos ≤ params.length)
  && kwargs.all (fun k => params.contains k)
  && (params.take npos).all (fun p => !kwargs.contains p)
  && ((params.take (params.length - defaults)).drop npos).all (fun p => kwargs.contains p)

/-- Parameter list of `PersistentMemory.add_memory(self, text, role="user")`
(brain.py line 73), `self` excluded; one parameter has a default. -/
def addMemoryParams : List String := ["text", "role"]

/-- Parameter list of `PersistentMemory.search_memory(self, query, top_k=3)`
(brain.py line 94), `self` excluded; one parameter has a default. -/
def searchMemoryParams : List String := ["query", "top_k"]

/-! ## Vector store (Pinecone index) and `brain.py` -/

/-- The metadata `add_memory` attaches to an upserted vector
(brain.py line 88): `{"text": text, "role": role, "timestamp": time.time()}`.
There is no user or namespace field. -/
structure MemMeta where
  text : String
  role : String
  timestamp : Nat
deriving Repr, DecidableEq

/-- One record of the Pinecone index: id, embedding values, metadata. -/
structure VectorRecord where
  id : String
  values : List ℚ
  metadata : MemMeta
deriving Repr, DecidableEq

/-- The state of the single shared Pinecone index `persistent-memory`. -/
abbrev IndexState := List VectorRecord

/-- Pinecone upsert: replace the record with the same id if present,
otherwise append. -/
def upsert (st : IndexState) (r : VectorRecord) : IndexState :=
  if st.any (fun x => x.id == r.id) then
    st.map (fun x => if x.id == r.id then r else x)
  else
    st ++ [r]

/-- `vector_id = f"mem-{int(time.time())}"` (brain.py line 81): the id is
derived from the current integer time alone. -/
def mkVectorId (now : Nat) : String := "mem-" ++ toString now

/-- `PersistentMemory.add_memory(text, role)` (brain.py lines 73-92):
skip blank text, embed, upsert one record with id `mem-<int time>` and
metadata `{text, role, timestamp}`. The embedder is the opaque
parameter `embed`; `now` is `int(time.time())`. The method has no
user or namespace parameter and the upsert carries no namespace. -/
def add_memory (embed : String → List ℚ) (now : Nat) (st : IndexState)
    (text : String) (role : String) : IndexState :=
  if pyStrip text = "" then st
  else upsert st ⟨mkVectorId now, embed text, ⟨text, role, now⟩⟩

/-- Relation ordering records by descending similarity to a query
vector, under an opaque scoring function. -/
def scoreDesc (score : List ℚ → List ℚ → ℚ) (qv : List ℚ) (a b : VectorRecord) : Prop :=
  score qv b.values ≤ score qv a.values

instance (score : List ℚ → List ℚ → ℚ) (qv : List ℚ) :
    DecidableRel (scoreDesc score qv) := fun a b =>
  inferInstanceAs (Decidable (score qv b.values ≤ score qv a.values))

/-- `PersistentMemory.search_memory(query, top_k=3)` (brain.py lines
94-107): embed the query, ask the index for the `top_k` most similar
records (Pinecone's ranking is modelled as sorting the whole index by
descending score and truncating), then collect `(metadata.text, score)`
for the matches whose metadata carries a non-empty text. The query is
made against the whole index: the method has no user or namespace
parameter. -/
def search_memory (embed : String → List ℚ) (score : List ℚ → List ℚ → ℚ)
    (st : IndexState) (query : String) (top_k : Nat) : List (String × ℚ) :=
  let qv := embed query
  let ranked := (List.insertionSort (scoreDesc score qv) st).take top_k
  (ranked.filter (fun m => m.metadata.text ≠ "")).map
    (fun m => (m.metadata.text, score qv m.values))

/-! ## The chat handler's recall step (`app.py` lines 148-157) -/

/-- Outcome of the `memory.search_memory(...)` call inside the `/chat`
handler's `try` block: either the call raised (any exception — in the
shipped code the call `search_memory(user_text, user_id=..., top_k=3)`
raises `TypeError` because `search_memory` has no `user_id` parameter)
or it returned a list of pairs. -/
inductive SearchOutcome where
  | raised : SearchOutcome
  | returned : List (String × ℚ) → SearchOutcome
deriving Repr, DecidableEq

/-- The `/chat` handler's recall step (app.py lines 148-157):
`relevant_contexts` starts empty; if the global `memory` is `None`
(store unavailable at startup) the search is skipped; otherwise the
search runs inside `try/except` and any exception leaves the empty
list in place. -/
def handlerRecall (memAvailable : Bool) (outcome : SearchOutcome) : List (String × ℚ) :=
  if memAvailable then
    match outcome with
    | .raised => []
    | .returned rs => rs
  else []

/-- The `/chat` handler's threshold filter (app.py lines 153-154):
`relevant_contexts = [text for text, score in results if score > threshold]`
with `threshold = 0.7`. -/
def relevantContexts : List (String × ℚ) → List String
  | [] => []
  | (text, score) :: rest =>
    if 7 / 10 < score then text :: relevantContexts rest
    else relevantContexts rest

/-! ## Relational model (`models.py`, `database.py`) -/

/-- A row of the `conversations` table (models.py lines 6-18). -/
structure Conversation where
  id : Nat
  user_id : String
  title : String
  created_at : Nat
  updated_at : Nat
deriving Repr, DecidableEq

/-- A row of the `messages` table (models.py lines 20-33). SQLite does
not enforce the `conversation_id` foreign key here (no
`foreign_keys` pragma is issued in database.py), so the column is a
plain integer. -/
structure Message where
  id : Nat
  conversation_id : Nat
  role : String
  content : String
  created_at : Nat
deriving Repr, DecidableEq

/-- The SQLite database state. List order is insertion (rowid) order;
autoincrement ids are `length + 1` at insertion time. -/
structure DB where
  convos : List Conversation
  msgs : List Message
deriving Repr, DecidableEq

/-- `" ".join(text.split()[:5])` (worker.py line 42): Python `str.split()`
splits on whitespace runs and drops empty pieces. -/
def firstFiveWords (text : String) : String :=
  joinSpace ((pySplit text).take 5)

/-- The title update of worker.py lines 38-43, as a per-row update:
if the row is the one with this conversation id and its title is still
the sentinel `New Chat`, set the title to the first five words of the
text and set the owning `user_id`. -/
def applyTitle (conversation_id : Nat) (text user_id : String) (c : Conversation) : Conversation :=
  if c.id = conversation_id ∧ c.title = "New Chat" then
    { c with title := firstFiveWords text, user_id := user_id }
  else c

/-- The `updated_at` bump of worker.py lines 46-48, as a per-row
update keyed on the conversation id. -/
def applyTouch (conversation_id : Nat) (now : Nat) (c : Conversation) : Conversation :=
  if c.id = conversation_id then { c with updated_at := now } else c

/-- `save_to_sql_db(conversation_id, text, role, user_id)` (worker.py
lines 25-55): insert a `Message` row; if the role is `user`, run the
sentinel-guarded title update; then bump `updated_at` of the
conversation row with this id; commit. Row lookups by primary key are
modelled as a map over the table (primary-key ids are unique). `now`
is the commit-time `func.now()`. -/
def save_to_sql_db (conversation_id : Nat) (text role user_id : String)
    (now : Nat) (db : DB) : DB :=
  let msgs' := db.msgs ++ [⟨db.msgs.length + 1, conversation_id, role, text, now⟩]
  let convos₁ :=
    if role = "user" then db.convos.map (applyTitle conversation_id text user_id)
    else db.convos
  let convos₂ := convos₁.map (applyTouch conversation_id now)
  ⟨convos₂, msgs'⟩

/-! ## HTTP handlers (`app.py`) -/

/-- Ascending `created_at` order on messages, the `ORDER BY` of
`get_history` (app.py line 207). -/
def createdLe (a b : Message) : Prop := a.created_at ≤ b.created_at

instance : DecidableRel createdLe := fun a b =>
  inferInstanceAs (Decidable (a.created_at ≤ b.created_at))

instance : IsTotal Message createdLe := ⟨fun a b => Nat.le_total a.created_at b.created_at⟩

instance : IsTrans Message createdLe := ⟨fun _ _ _ h₁ h₂ => Nat.le_trans h₁ h₂⟩

/-- The message query of `GET /history/{conversation_id}` (app.py lines
205-208): filter the `messages` table by conversation id, order by
`created_at` ascending. -/
def historyQuery (db : DB) (conversation_id : Nat) : List Message :=
  List.insertionSort createdLe
    (db.msgs.filter (fun m => m.conversation_id = conversation_id))

/-- Response of `GET /history/{conversation_id}`: either
`HTTPException(404)` or status 200 with the message rows. -/
inductive HistoryResponse where
  | notFound : HistoryResponse
  | ok : List Message → HistoryResponse
deriving Repr, DecidableEq

/-- `get_history` (app.py lines 201-213): run the query; if the result
is empty raise a 404, otherwise return the rows. -/
def get_history (db : DB) (conversation_id : Nat) : HistoryResponse :=
  let msgs := historyQuery db conversation_id
  if msgs = [] then .notFound else .ok msgs

/-- Descending `updated_at` order on conversations, the `ORDER BY` of
`get_conversations` (app.py line 194). -/
def updatedDesc (a b : Conversation) : Prop := b.updated_at ≤ a.updated_at

instance : DecidableRel updatedDesc := fun a b =>
  inferInstanceAs (Decidable (b.updated_at ≤ a.updated_at))

instance : IsTotal Conversation updatedDesc := ⟨fun a b => Nat.le_total b.updated_at a.updated_at⟩

instance : IsTrans Conversation updatedDesc := ⟨fun _ _ _ h₁ h₂ => Nat.le_trans h₂ h₁⟩

/-- `get_conversations` (app.py lines 186-197): the handler takes no
user parameter; it filters the `conversations` table by the hardcoded
`user_id = "guest_session"` and orders by `updated_at` descending. -/
def get_conversations (db : DB) : List Conversation :=
  List.insertionSort updatedDesc
    (db.convos.filter (fun c => c.user_id = "guest_session"))

/-! ## The `/chat` handler (`app.py` lines 119-182) -/

/-- Body of `POST /chat` (app.py lines 57-62); `user_id` defaults to
`guest_session` in the pydantic model. -/
structure ChatRequest where
  user_input : String
  conversation_id : Option Nat
  user_id : String
deriving Repr, DecidableEq

/-- A Celery job enqueued by `embed_and_save_task.delay(...)`. -/
structure Job where
  text : String
  user_id : String
  role : String
  conversation_id : Nat
deriving Repr, DecidableEq

/-- What `/chat` answers before any token is streamed: the early-return
body `{"error": "Empty input."}` (a plain dict, which FastAPI serves
with status 200), or a `StreamingResponse` whose `X-Conversation-Id`
header carries the resolved conversation id. -/
inductive ChatResponse where
  | emptyInputError : ChatResponse
  | streaming : Nat → ChatResponse
deriving Repr, DecidableEq

/-- HTTP status code of a `/chat` response: a returned dict and a
started stream are both served with 200. -/
def ChatResponse.status : ChatResponse → Nat
  | .emptyInputError => 200
  | .streaming _ => 200

/-- Observable outcome of one `/chat` call, up to the start of the LLM
stream: the database after the handler's synchronous work, the jobs it
enqueued, the memory-search queries it issued, and the response. -/
structure ChatOutcome where
  db : DB
  jobs : List Job
  searches : List String
  response : ChatResponse
deriving Repr, DecidableEq

/-- The synchronous part of `chat_stream` (app.py lines 119-182):
strip the input and return `{"error": "Empty input."}` if it is empty;
otherwise create a `Conversation(user_id, title="New Chat")` when no
conversation id was supplied, enqueue the user message for the worker,
and (when the global `memory` is available) search memories for the
stripped text before streaming. `now` is the row-creation time. -/
def chat_stream (req : ChatRequest) (db : DB) (now : Nat) (memAvailable : Bool) :
    ChatOutcome :=
  let user_text := pyStrip req.user_input
  if user_text = "" then ⟨db, [], [], .emptyInputError⟩
  else
    let resolved : Nat × DB :=
      match req.conversation_id with
      | none =>
        let c : Conversation := ⟨db.convos.length + 1, req.user_id, "New Chat", now, now⟩
        (c.id, ⟨db.convos ++ [c], db.msgs⟩)
      | some cid => (cid, db)
    let convoId := resolved.1
    let db₁ := resolved.2
    ⟨db₁, [⟨user_text, req.user_id, "user", convoId⟩],
      if memAvailable then [user_text] else [], .streaming convoId⟩

/-! ## Helper lemmas -/

theorem applyTouch_title (conversation_id now : Nat) (c : Conversation) :
    (applyTouch conversation_id now c).title = c.title := by
  unfold applyTouch
  by_cases h : c.id = conversation_id <;> simp [h]

theorem applyTouch_id (conversation_id now : Nat) (c : Conversation) :
    (applyTouch conversation_id now c).id = c.id := by
  unfold applyTouch
  by_cases h : c.id = conversation_id <;> simp [h]

theorem applyTitle_of_ne (conversation_id : Nat) (text user_id : String)
    (c : Conversation) (h : c.id ≠ conversation_id) :
    applyTitle conversation_id text user_id c = c := by
  simp [applyTitle, h]

theorem applyTouch_of_ne (conversation_id now : Nat) (c : Conversation)
    (h : c.id ≠ conversation_id) :
    applyTouch conversation_id now c = c := by
  simp [applyTouch, h]

theorem applyTitle_id (conversation_id : Nat) (text user_id : String) (c : Conversation) :
    (applyTitle conversation_id text user_id c).id = c.id := by
  unfold applyTitle
  by_cases h : c.id = conversation_id ∧ c.title = "New Chat" <;> simp [h]

theorem applyTitle_title (conversation_id : Nat) (text user_id : String) (c : Conversation) :
    (applyTitle conversation_id text user_id c).title
      = if c.id = conversation_id ∧ c.title = "New Chat" then firstFiveWords text
        else c.title := by
  unfold applyTitle
  by_cases h : c.id = conversation_id ∧ c.title = "New Chat" <;> simp [h]

theorem save_user_titles (db : DB) (conversation_id : Nat) (t u : String) (n : Nat) :
    (save_to_sql_db conversation_id t "user" u n db).convos.map (fun c => c.title)
      = db.convos.map (fun c =>
          if c.id = conversation_id ∧ c.title = "New Chat" then firstFiveWords t
          else c.title) := by
  obtain ⟨cs, ms⟩ := db
  simp only [save_to_sql_db, reduceIte, List.map_map]
  apply List.map_congr_left
  intro c _
  simp only [Function.comp]
  rw [applyTouch_title, applyTitle_title]

theorem save_user_id_invariant (db : DB) (conversation_id : Nat) (t u : String) (n : Nat)
    (c' : Conversation)
    (hmem : c' ∈ (save_to_sql_db conversation_id t "user" u n db).convos) :
    ∃ c ∈ db.convos, c' = applyTouch conversation_id n (applyTitle conversation_id t u c) := by
  obtain ⟨cs, ms⟩ := db
  simp only [save_to_sql_db, reduceIte, List.map_map] at hmem
  obtain ⟨c, hc, hc'⟩ := List.mem_map.mp hmem
  exact ⟨c, hc, hc'.symm⟩

theorem save_user_no_sentinel (db : DB) (conversation_id : Nat) (t u : String) (n : Nat)
    (h : firstFiveWords t ≠ "New Chat") :
    ∀ c' ∈ (save_to_sql_db conversation_id t "user" u n db).convos,
      c'.id = conversation_id → c'.title ≠ "New Chat" := by
  intro c' hmem hid
  obtain ⟨c, _, rfl⟩ := save_user_id_invariant db conversation_id t u n c' hmem
  rw [applyTouch_title, applyTitle_title]
  by_cases hcond : c.id = conversation_id ∧ c.title = "New Chat"
  · rw [if_pos hcond]
    exact h
  · rw [if_neg hcond]
    intro hsent
    have hcid : c.id = conversation_id := by
      rw [← applyTitle_id conversation_id t u c, ← applyTouch_id conversation_id n]
      exact hid
    exact hcond ⟨hcid, hsent⟩

theorem save_user_titles_stable (d : DB) (conversation_id : Nat) (t u : String) (n : Nat)
    (hP : ∀ c ∈ d.convos, c.id = conversation_id → c.title ≠ "New Chat") :
    (save_to_sql_db conversation_id t "user" u n d).convos.map (fun c => c.title)
      = d.convos.map (fun c => c.title)
    ∧ ∀ c' ∈ (save_to_sql_db conversation_id t "user" u n d).convos,
        c'.id = conversation_id → c'.title ≠ "New Chat" := by
  constructor
  · rw [save_user_titles]
    apply List.map_congr_left
    intro c hc
    rw [if_neg]
    intro hcond
    exact hP c hc hcond.1 hcond.2
  · intro c' hmem hid
    obtain ⟨c, hc, rfl⟩ := save_user_id_invariant d conversation_id t u n c' hmem
    have hcid : c.id = conversation_id := by
      rw [← applyTitle_id conversation_id t u c, ← applyTouch_id conversation_id n]
      exact hid
    rw [applyTouch_title, applyTitle_title, if_neg]
    · exact hP c hc hcid
    · intro hcond
      exact hP c hc hcond.1 hcond.2

theorem foldl_user_saves_titles_stable (conversation_id : Nat)
    (rest : List (String × String × Nat)) :
    ∀ d : DB, (∀ c ∈ d.convos, c.id = conversation_id → c.title ≠ "New Chat") →
      (rest.foldl (fun d' p => save_to_sql_db conversation_id p.1 "user" p.2.1 p.2.2 d')
          d).convos.map (fun c => c.title)
        = d.convos.map (fun c => c.title) := by
  induction rest with
  | nil => intro d _; rfl
  | cons p rest ih =>
    intro d hP
    obtain ⟨hstep, hP'⟩ :=
      save_user_titles_stable d conversation_id p.1 p.2.1 p.2.2 hP
    calc (List.foldl (fun d' p => save_to_sql_db conversation_id p.1 "user" p.2.1 p.2.2 d')
            (save_to_sql_db conversation_id p.1 "user" p.2.1 p.2.2 d) rest).convos.map
            (fun c => c.title)
        = (save_to_sql_db conversation_id p.1 "user" p.2.1 p.2.2 d).convos.map
            (fun c => c.title) :=
          ih (save_to_sql_db conversation_id p.1 "user" p.2.1 p.2.2 d) hP'
      _ = d.convos.map (fun c => c.title) := hstep

/-! ## Claims -/

/-- C1. Claimed: for every pair of distinct users A and B, a memory
stored through the write path (the worker's call to
`PersistentMemory.add_memory`) under user A's identifier never appears
among the `(text, score)` pairs returned by a `search_memory` call made
on behalf of user B. The code violates its own stated intent
(worker.py line 80: "Passes user_id to brain.py for Pinecone Namespace
isolation"; app.py line 151: "We now search using the hardcoded
user_id as namespace"): `add_memory` and `search_memory` accept no
user or namespace parameter, so the worker's call
`add_memory(text_to_embed, user_id, role=role)` and the handler's call
`search_memory(user_text, user_id=..., top_k=3)` both fail Python
argument binding (a `TypeError`, swallowed by the surrounding
handlers), and a record that does reach the index is stored without
any namespace and is returned by a search made on behalf of any other
user. -/
theorem C1_namespace_isolation_broken :
    bindOk addMemoryParams 1 2 ["role"] = false
    ∧ bindOk searchMemoryParams 1 1 ["user_id", "top_k"] = false
    ∧ search_memory (fun _ => [1]) (fun _ _ => 1)
        (add_memory (fun _ => [1]) 100 [] "A secret fact" "user")
        "any question user B asks" 3
      = [("A secret fact", 1)] := by
  exact ⟨by decide, by decide, by decide⟩

/-- C2. When the vector store is unavailable (the global `memory` is
`None`), or the search call raises (it is wrapped in `try/except`), or
the index holds no memories, the recall step of the `/chat` handler
yields the empty list of `(text, score)` pairs. `handlerRecall` is a
total function into lists, so no error propagates out of the recall
step to abort the chat turn. -/
theorem C2_recall_degrades_to_empty :
    ∀ (outcome : SearchOutcome) (embed : String → List ℚ)
      (score : List ℚ → List ℚ → ℚ) (query : String) (top_k : Nat),
      handlerRecall false outcome = []
      ∧ handlerRecall true .raised = []
      ∧ search_memory embed score [] query top_k = []
      ∧ handlerRecall true (.returned (search_memory embed score [] query top_k)) = [] := by
  intro outcome embed score query top_k
  refine ⟨rfl, rfl, ?_, ?_⟩ <;> simp [search_memory, handlerRecall]

/-- C3. The `/chat` handler's prompt construction keeps, of the pairs
recall returned, exactly those whose score exceeds 7/10 — every pair
with score ≤ 0.70 is excluded, every pair with score > 0.70 is
included — and the kept texts appear in the order recall returned
them (the result is a sublist of the texts of the input). -/
theorem C3_threshold_filter :
    ∀ rs : List (String × ℚ),
      relevantContexts rs
        = (rs.filter (fun p => decide (7 / 10 < p.2))).map Prod.fst
      ∧ (relevantContexts rs).Sublist (rs.map Prod.fst) := by
  intro rs
  have hmain : relevantContexts rs
      = (rs.filter (fun p => decide (7 / 10 < p.2))).map Prod.fst := by
    induction rs with
    | nil => rfl
    | cons p rest ih =>
      obtain ⟨t, s⟩ := p
      by_cases h : (7 : ℚ) / 10 < s <;>
        simp [relevantContexts, List.filter_cons, h, ih]
  refine ⟨hmain, ?_⟩
  rw [hmain]
  exact (List.filter_sublist rs).map Prod.fst

/-- C4, counterexample. Claimed: every record id produced by
`add_memory` is a unique string derived from the owning user identifier
together with the creation time. In the code the id is
`f"mem-{int(time.time())}"`: two writes in the same second — here on
behalf of different users, for the write path has no user parameter at
all — produce the identical id `mem-100`, and the second upsert
replaces the first record, so the ids are neither unique nor derived
from the user identifier. -/
theorem C4_counterexample :
    add_memory (fun _ => [1]) 100 [] "alpha" "user"
      = [⟨"mem-100", [1], ⟨"alpha", "user", 100⟩⟩]
    ∧ add_memory (fun _ => [1]) 100 (add_memory (fun _ => [1]) 100 [] "alpha" "user")
        "beta" "user"
      = [⟨"mem-100", [1], ⟨"beta", "user", 100⟩⟩] := by
  exact ⟨by decide, by decide⟩

/-- C4, amended. Every record id produced by `add_memory` is the string
`mem-` followed by the integer creation time alone: the user identifier
is not part of the id, and ids are not unique — two non-blank writes in
the same second carry the same id, so the second upsert replaces the
first and a single record remains, holding the second text. -/
theorem C4_id_from_time_only (embed : String → List ℚ) (now : Nat)
    (t₁ r₁ t₂ r₂ : String) (h₁ : pyStrip t₁ ≠ "") (h₂ : pyStrip t₂ ≠ "") :
    add_memory embed now (add_memory embed now [] t₁ r₁) t₂ r₂
      = [⟨mkVectorId now, embed t₂, ⟨t₂, r₂, now⟩⟩] := by
  simp [add_memory, h₁, h₂, upsert]

/-- Witness for C4's amended theorem at a concrete input. -/
theorem C4_id_from_time_only_witness :
    add_memory (fun _ => [2]) 5 (add_memory (fun _ => [2]) 5 [] "a" "user") "b" "assistant"
      = [⟨mkVectorId 5, [2], ⟨"b", "assistant", 5⟩⟩] :=
  C4_id_from_time_only (fun _ => [2]) 5 "a" "user" "b" "assistant" (by decide) (by decide)

/-- C5, counterexample. Claimed: the first user message persisted into
a conversation sets its title to that message's first five words
exactly once, and no second or later user message ever changes the
title again. The worker's guard is the sentinel check
`convo.title == "New Chat"`, so when the first user message's first
five words are exactly `New Chat` the title (re)set by the first
message still passes the guard and the second user message retitles
the conversation: below, after the first message the title is
`New Chat`, after the second it is `hello there`. -/
theorem C5_counterexample :
    ((save_to_sql_db 1 "New Chat" "user" "u1" 1
        ⟨[⟨1, "guest_session", "New Chat", 0, 0⟩], []⟩).convos.map (fun c => c.title)
      = ["New Chat"])
    ∧ ((save_to_sql_db 1 "hello there" "user" "u2" 2
        (save_to_sql_db 1 "New Chat" "user" "u1" 1
          ⟨[⟨1, "guest_session", "New Chat", 0, 0⟩], []⟩)).convos.map (fun c => c.title)
      = ["hello there"]) := by
  exact ⟨by decide, by decide⟩

/-- C5, amended. Persisting the first user message into a conversation
sets the title of the conversation row with that id — if its title is
still the sentinel `New Chat` — to the message's first five
whitespace-delimited words, leaving every other title unchanged
(first conjunct); and provided those five words are not themselves
`New Chat`, persisting any number of further user messages into that
conversation afterwards never changes any conversation title again
(second conjunct, a fold over an arbitrary list of later user
messages). (If they are exactly `New Chat`, the sentinel guard fires
again and a later user message retitles the conversation.) -/
theorem C5_title_set_once (db : DB) (cid : Nat) (t₁ u₁ : String) (n₁ : Nat)
    (rest : List (String × String × Nat))
    (h : firstFiveWords t₁ ≠ "New Chat") :
    (save_to_sql_db cid t₁ "user" u₁ n₁ db).convos.map (fun c => c.title)
      = db.convos.map (fun c =>
          if c.id = cid ∧ c.title = "New Chat" then firstFiveWords t₁ else c.title)
    ∧ (rest.foldl (fun d p => save_to_sql_db cid p.1 "user" p.2.1 p.2.2 d)
          (save_to_sql_db cid t₁ "user" u₁ n₁ db)).convos.map (fun c => c.title)
      = (save_to_sql_db cid t₁ "user" u₁ n₁ db).convos.map (fun c => c.title) := by
  refine ⟨save_user_titles db cid t₁ u₁ n₁, ?_⟩
  exact foldl_user_saves_titles_stable cid rest
    (save_to_sql_db cid t₁ "user" u₁ n₁ db)
    (save_user_no_sentinel db cid t₁ u₁ n₁ h)

/-- Witness for C5's amended theorem at a concrete input: one
sentinel-titled conversation, a first user message, then two later
user messages. -/
theorem C5_title_set_once_witness :
    (save_to_sql_db 1 "hello there world" "user" "u1" 1
        ⟨[⟨1, "guest_session", "New Chat", 0, 0⟩], []⟩).convos.map (fun c => c.title)
      = (⟨[⟨1, "guest_session", "New Chat", 0, 0⟩], []⟩ : DB).convos.map (fun c =>
          if c.id = 1 ∧ c.title = "New Chat" then firstFiveWords "hello there world"
          else c.title)
    ∧ ([("later message", "u2", 2), ("third message", "u3", 3)].foldl
          (fun d p => save_to_sql_db 1 p.1 "user" p.2.1 p.2.2 d)
          (save_to_sql_db 1 "hello there world" "user" "u1" 1
            ⟨[⟨1, "guest_session", "New Chat", 0, 0⟩], []⟩)).convos.map (fun c => c.title)
      = (save_to_sql_db 1 "hello there world" "user" "u1" 1
          ⟨[⟨1, "guest_session", "New Chat", 0, 0⟩], []⟩).convos.map (fun c => c.title) :=
  C5_title_set_once ⟨[⟨1, "guest_session", "New Chat", 0, 0⟩], []⟩ 1
    "hello there world" "u1" 1 [("later message", "u2", 2), ("third message", "u3", 3)]
    (by decide)

/-- C6. For any conversation whose stored messages have strictly
increasing `created_at` in insertion order, `get_history` returns
exactly those messages in that order (ascending `created_at`; under
strictly increasing times no ties arise, so insertion order is
preserved), and when there is at least one such message the endpoint
answers 200 with precisely that list. -/
theorem C6_history_in_insertion_order (db : DB) (cid : Nat)
    (h : (db.msgs.filter (fun m => m.conversation_id = cid)).Pairwise
        (fun a b => a.created_at < b.created_at)) :
    historyQuery db cid = db.msgs.filter (fun m => m.conversation_id = cid)
    ∧ (db.msgs.filter (fun m => m.conversation_id = cid) ≠ [] →
        get_history db cid = .ok (db.msgs.filter (fun m => m.conversation_id = cid))) := by
  have hsorted : (db.msgs.filter (fun m => m.conversation_id = cid)).Sorted createdLe :=
    h.imp (fun hab => Nat.le_of_lt hab)
  have heq : historyQuery db cid = db.msgs.filter (fun m => m.conversation_id = cid) :=
    hsorted.insertionSort_eq
  refine ⟨heq, fun hne => ?_⟩
  simp [get_history, heq, hne]

/-- Witness for C6 at a concrete input: three messages of two
conversations, those of conversation 1 inserted at times 1 then 2. -/
theorem C6_history_in_insertion_order_witness :
    historyQuery ⟨[], [⟨1, 1, "user", "q", 1⟩, ⟨2, 2, "user", "x", 0⟩,
        ⟨3, 1, "assistant", "a", 2⟩]⟩ 1
      = (⟨[], [⟨1, 1, "user", "q", 1⟩, ⟨2, 2, "user", "x", 0⟩,
          ⟨3, 1, "assistant", "a", 2⟩]⟩ : DB).msgs.filter (fun m => m.conversation_id = 1)
    ∧ ((⟨[], [⟨1, 1, "user", "q", 1⟩, ⟨2, 2, "user", "x", 0⟩,
          ⟨3, 1, "assistant", "a", 2⟩]⟩ : DB).msgs.filter (fun m => m.conversation_id = 1) ≠ [] →
        get_history ⟨[], [⟨1, 1, "user", "q", 1⟩, ⟨2, 2, "user", "x", 0⟩,
          ⟨3, 1, "assistant", "a", 2⟩]⟩ 1
          = .ok ((⟨[], [⟨1, 1, "user", "q", 1⟩, ⟨2, 2, "user", "x", 0⟩,
              ⟨3, 1, "assistant", "a", 2⟩]⟩ : DB).msgs.filter (fun m => m.conversation_id = 1))) :=
  C6_history_in_insertion_order
    ⟨[], [⟨1, 1, "user", "q", 1⟩, ⟨2, 2, "user", "x", 0⟩, ⟨3, 1, "assistant", "a", 2⟩]⟩ 1
    (by decide)

/-- C7. `GET /history/{conversation_id}` answers 404 exactly when the
message query for that id returns no rows; the answer does not consult
the `conversations` table, so a never-created id and an existing
conversation with zero messages are treated alike; and when rows exist
the endpoint answers 200 with the queried messages. -/
theorem C7_history_404_iff_no_rows (db : DB) (cid : Nat) :
    (get_history db cid = .notFound
      ↔ db.msgs.filter (fun m => m.conversation_id = cid) = [])
    ∧ (∀ convos₁ convos₂ : List Conversation, ∀ msgs : List Message,
        get_history ⟨convos₁, msgs⟩ cid = get_history ⟨convos₂, msgs⟩ cid)
    ∧ (db.msgs.filter (fun m => m.conversation_id = cid) ≠ [] →
        get_history db cid = .ok (historyQuery db cid)) := by
  have hperm := List.perm_insertionSort createdLe
    (db.msgs.filter (fun m => m.conversation_id = cid))
  have hiff : historyQuery db cid = []
      ↔ db.msgs.filter (fun m => m.conversation_id = cid) = [] := by
    unfold historyQuery
    constructor
    · intro hqe
      rw [hqe] at hperm
      exact hperm.symm.eq_nil
    · intro hf
      rw [hf]
      rfl
  have hnotFound : ∀ _ : historyQuery db cid = [], get_history db cid = .notFound :=
    fun hq => by simp [get_history, hq]
  have hok : ∀ _ : historyQuery db cid ≠ [],
      get_history db cid = .ok (historyQuery db cid) :=
    fun hq => by simp [get_history, hq]
  refine ⟨?_, fun _ _ _ => rfl, fun hne => ?_⟩
  · constructor
    · intro hnf
      by_contra hf
      have hq : historyQuery db cid ≠ [] := fun hnil => hf (hiff.mp hnil)
      rw [hok hq] at hnf
      exact HistoryResponse.noConfusion hnf
    · intro hf
      exact hnotFound (hiff.mpr hf)
  · exact hok (fun hnil => hne (hiff.mp hnil))

/-- Witness for C7 at the spec's own scenario: a database holding one
message of conversation 1, queried for the never-created id 999999. -/
theorem C7_history_404_iff_no_rows_witness :
    (get_history ⟨[], [⟨1, 1, "user", "q", 1⟩]⟩ 999999 = .notFound
      ↔ (⟨[], [⟨1, 1, "user", "q", 1⟩]⟩ : DB).msgs.filter
          (fun m => m.conversation_id = 999999) = [])
    ∧ (∀ convos₁ convos₂ : List Conversation, ∀ msgs : List Message,
        get_history ⟨convos₁, msgs⟩ 999999 = get_history ⟨convos₂, msgs⟩ 999999)
    ∧ ((⟨[], [⟨1, 1, "user", "q", 1⟩]⟩ : DB).msgs.filter
          (fun m => m.conversation_id = 999999) ≠ [] →
        get_history ⟨[], [⟨1, 1, "user", "q", 1⟩]⟩ 999999
          = .ok (historyQuery ⟨[], [⟨1, 1, "user", "q", 1⟩]⟩ 999999)) :=
  C7_history_404_iff_no_rows ⟨[], [⟨1, 1, "user", "q", 1⟩]⟩ 999999

/-- C8, counterexample. Claimed: `GET /conversations` returns the
conversations of the requesting user's `user_id`, and after
`POST /chat` with user id `u1` creates a conversation, a subsequent
listing for `u1` returns exactly that entry. The handler takes no user
parameter and filters by the hardcoded `user_id = "guest_session"`
(app.py line 190): a chat by `u1` creates the conversation, yet the
listing returns the empty list. -/
theorem C8_counterexample :
    (chat_stream ⟨"Explain gradient descent", none, "u1"⟩ ⟨[], []⟩ 7 true).db.convos
      = [⟨1, "u1", "New Chat", 7, 7⟩]
    ∧ get_conversations
        (chat_stream ⟨"Explain gradient descent", none, "u1"⟩ ⟨[], []⟩ 7 true).db
      = [] := by
  exact ⟨by decide, by decide⟩

/-- C8, amended. `GET /conversations` ignores the requester: it
returns precisely the conversations whose `user_id` is the hardcoded
`guest_session`, ordered by `updated_at` descending; so only after
`POST /chat` on behalf of `guest_session` does the listing return the
created conversation (here, exactly that one entry on a fresh
database), while a conversation created for `u1` is never listed. -/
theorem C8_conversations_hardcoded_user (db : DB) :
    (get_conversations db).Perm
        (db.convos.filter (fun c => c.user_id = "guest_session"))
    ∧ (get_conversations db).Sorted updatedDesc
    ∧ get_conversations
        (chat_stream ⟨"Explain gradient descent", none, "guest_session"⟩ ⟨[], []⟩ 7 true).db
      = [⟨1, "guest_session", "New Chat", 7, 7⟩] := by
  exact ⟨List.perm_insertionSort updatedDesc _,
    List.sorted_insertionSort updatedDesc _, by decide⟩

/-- C9. A `save_to_sql_db` call whose conversation id matches no row of
the `conversations` table still inserts and commits the `Message` row
(the title and `updated_at` updates find no row and are skipped): the
conversations table is unchanged, the orphan message is appended, and
`get_history` for that id subsequently answers 200 with a list
containing it. -/
theorem C9_orphan_message_persisted (db : DB) (cid : Nat) (t role u : String) (now : Nat)
    (h : ∀ c ∈ db.convos, c.id ≠ cid) :
    (save_to_sql_db cid t role u now db).convos = db.convos
    ∧ (save_to_sql_db cid t role u now db).msgs
        = db.msgs ++ [⟨db.msgs.length + 1, cid, role, t, now⟩]
    ∧ ∃ l, get_history (save_to_sql_db cid t role u now db) cid = .ok l
        ∧ (⟨db.msgs.length + 1, cid, role, t, now⟩ : Message) ∈ l := by
  have htitle : db.convos.map (applyTitle cid t u) = db.convos := by
    have hpt : ∀ c ∈ db.convos, applyTitle cid t u c = id c :=
      fun c hc => applyTitle_of_ne cid t u c (h c hc)
    rw [List.map_congr_left hpt, List.map_id]
  have htouch : db.convos.map (applyTouch cid now) = db.convos := by
    have hpt : ∀ c ∈ db.convos, applyTouch cid now c = id c :=
      fun c hc => applyTouch_of_ne cid now c (h c hc)
    rw [List.map_congr_left hpt, List.map_id]
  have hconvos : (save_to_sql_db cid t role u now db).convos = db.convos := by
    by_cases hrole : role = "user" <;>
      simp [save_to_sql_db, hrole, htitle, htouch]
  have hmsgs : (save_to_sql_db cid t role u now db).msgs
      = db.msgs ++ [⟨db.msgs.length + 1, cid, role, t, now⟩] := rfl
  have hmem : (⟨db.msgs.length + 1, cid, role, t, now⟩ : Message)
      ∈ (save_to_sql_db cid t role u now db).msgs.filter
          (fun m => m.conversation_id = cid) := by
    rw [hmsgs]
    simp
  have hmemq : (⟨db.msgs.length + 1, cid, role, t, now⟩ : Message)
      ∈ historyQuery (save_to_sql_db cid t role u now db) cid := by
    unfold historyQuery
    exact (List.mem_insertionSort createdLe).mpr hmem
  have hne : historyQuery (save_to_sql_db cid t role u now db) cid ≠ [] :=
    List.ne_nil_of_mem hmemq
  exact ⟨hconvos, hmsgs,
    historyQuery (save_to_sql_db cid t role u now db) cid,
    by simp [get_history, hne], hmemq⟩

/-- Witness for C9 at a concrete input: one conversation with id 1,
a worker job committed for the never-created conversation id 2. -/
theorem C9_orphan_message_persisted_witness :
    (save_to_sql_db 2 "lost" "user" "u" 9
        ⟨[⟨1, "guest_session", "New Chat", 0, 0⟩], []⟩).convos
      = (⟨[⟨1, "guest_session", "New Chat", 0, 0⟩], []⟩ : DB).convos
    ∧ (save_to_sql_db 2 "lost" "user" "u" 9
        ⟨[⟨1, "guest_session", "New Chat", 0, 0⟩], []⟩).msgs
      = (⟨[⟨1, "guest_session", "New Chat", 0, 0⟩], []⟩ : DB).msgs
          ++ [⟨(⟨[⟨1, "guest_session", "New Chat", 0, 0⟩], []⟩ : DB).msgs.length + 1,
              2, "user", "lost", 9⟩]
    ∧ ∃ l, get_history (save_to_sql_db 2 "lost" "user" "u" 9
          ⟨[⟨1, "guest_session", "New Chat", 0, 0⟩], []⟩) 2 = .ok l
        ∧ (⟨(⟨[⟨1, "guest_session", "New Chat", 0, 0⟩], []⟩ : DB).msgs.length + 1,
            2, "user", "lost", 9⟩ : Message) ∈ l :=
  C9_orphan_message_persisted ⟨[⟨1, "guest_session", "New Chat", 0, 0⟩], []⟩ 2
    "lost" "user" "u" 9 (by decide)

/-- C10. `POST /chat` with an input that strips to the empty string
returns the body `{"error": "Empty input."}` — served by FastAPI with
status 200, not a 4xx — and performs no state change: the database is
untouched, no worker job is enqueued, and no memory search is made. -/
theorem C10_empty_input_no_op (req : ChatRequest) (db : DB) (now : Nat)
    (memAvailable : Bool) (h : pyStrip req.user_input = "") :
    chat_stream req db now memAvailable = ⟨db, [], [], .emptyInputError⟩
    ∧ ChatResponse.status .emptyInputError = 200 := by
  refine ⟨?_, rfl⟩
  simp [chat_stream, h]

/-- Witness for C10 at a concrete whitespace-only input. -/
theorem C10_empty_input_no_op_witness :
    chat_stream ⟨"   ", none, "u1"⟩ ⟨[], []⟩ 3 true
      = ⟨⟨[], []⟩, [], [], .emptyInputError⟩
    ∧ ChatResponse.status .emptyInputError = 200 :=
  C10_empty_input_no_op ⟨"   ", none, "u1"⟩ ⟨[], []⟩ 3 true (by decide)

end MlMemory
